import Mathlib

/-!
Verification of `homeassistant/components/bryant_evolution/climate.py`
(class `BryantEvolutionClimate`).

Shallow embedding conventions:
* The async device client `BryantEvolutionClient` is modelled as a record of
  pure response functions: each `read_*` accessor is the (stable within one
  call) value the device returns, each `set_*` accessor is a function from
  the written value to the boolean success flag the device reports.
* Device-side temperatures and setpoints are embedded as `Int`. The numeric
  `kwargs` of `async_set_temperature` are embedded as `ℚ` (the host coerces
  them with `vol.Coerce(float)`, so fractional values reach this code), and
  the source's `int(...)` conversion is `pyInt`, truncation toward zero.
  `None` becomes `Option.none`.
* `HomeAssistantError` keeps the `translation_key` and the
  `translation_placeholders` that the source attaches to each `raise`.
* Entity state mutation (`self._attr_* = ...`) is explicit state passing on
  `ControllerState`; a method that can raise returns the state as mutated up
  to the raise point together with `Option HomeAssistantError`
  (`none` = no exception), matching Python semantics where assignments
  performed before a `raise` persist.
* Calls to `self._async_write_ha_state()` / `self.async_write_ha_state()`
  (the UI refresh signal) and to the device `set_*` accessors are recorded,
  in execution order, in a `List Event` trace returned by each mutator.
-/

/-- `HVACMode` values of the host platform used by this module
(string values as in Home Assistant's `HVACMode` enum). -/
inductive HVACMode where
  | off
  | heat
  | cool
  | heat_cool
  | auto
  | dry
  | fan_only
deriving DecidableEq, Repr

/-- The string value of an `HVACMode` member (it is a `StrEnum`; this is the
string handed to the device client by `set_hvac_mode`). -/
def HVACMode.value : HVACMode → String
  | .off => "off"
  | .heat => "heat"
  | .cool => "cool"
  | .heat_cool => "heat_cool"
  | .auto => "auto"
  | .dry => "dry"
  | .fan_only => "fan_only"

/-- `HVACAction` values of the host platform used by this module. -/
inductive HVACAction where
  | off
  | heating
  | cooling
  | drying
  | fan
  | idle
deriving DecidableEq, Repr

/-- `HomeAssistantError` as raised in this module: a translation key and the
translation placeholders (rendered to strings). -/
structure HomeAssistantError where
  translation_key : String
  translation_placeholders : List (String × String)
deriving DecidableEq, Repr

/-- The device client collaborator (`evolutionhttp.BryantEvolutionClient`):
pure response model of its async accessors. -/
structure BryantEvolutionClient where
  read_current_temperature : Option Int
  read_fan_mode : Option String
  read_hvac_mode : Option (String × Bool)
  read_heating_setpoint : Option Int
  read_cooling_setpoint : Option Int
  set_hvac_mode : String → Bool
  set_heating_setpoint : Int → Bool
  set_cooling_setpoint : Int → Bool
  set_fan_mode : String → Bool

/-- The mutable `_attr_*` entity state of `BryantEvolutionClimate`. -/
structure ControllerState where
  current_temperature : Option Int
  fan_mode : Option String
  hvac_mode : Option HVACMode
  target_temperature : Option Int
  target_temperature_high : Option Int
  target_temperature_low : Option Int
  hvac_action : Option HVACAction
deriving DecidableEq, Repr

/-- Observable side effects of a mutator call: device writes (with the value
written) and UI refresh signals (`_async_write_ha_state`). -/
inductive Event where
  | setHvacModeWrite (mode : String)
  | setHeatingSetpointWrite (temp : Int)
  | setCoolingSetpointWrite (temp : Int)
  | setFanModeWrite (mode : String)
  | writeHaState
deriving DecidableEq, Repr

deriving instance DecidableEq for Except

/-- Python `str.upper()` on the ASCII mode strings this module handles
(defined over the character list so that it reduces definitionally). -/
def strUpper (s : String) : String := String.mk (s.data.map Char.toUpper)

/-- Python `str.lower()` on the ASCII fan-mode strings this module handles. -/
def strLower (s : String) : String := String.mk (s.data.map Char.toLower)

/-- Render an `Option Int` the way Python's `str()` renders the
corresponding value (`None` or the integer), as used in
`translation_placeholders`. -/
def optIntStr : Option Int → String
  | none => "None"
  | some v => toString v

/-- Render the `mode_and_active` tuple placeholder. -/
def modeAndActiveStr : String × Bool → String
  | (m, a) => "(" ++ m ++ ", " ++ (if a then "True" else "False") ++ ")"

/-- `BryantEvolutionClimate._read_hvac_mode`: parse the device's
`(mode, active)` tuple into an `HVACMode`, raising on a missing tuple or an
unrecognized mode string. -/
def _read_hvac_mode (client : BryantEvolutionClient) :
    Except HomeAssistantError HVACMode :=
  match client.read_hvac_mode with
  | none =>
    Except.error { translation_key := "failed_to_read_hvac_mode",
                   translation_placeholders := [] }
  | some mode_and_active =>
    let mode := mode_and_active.1
    match strUpper mode with
    | "HEAT" => Except.ok HVACMode.heat
    | "COOL" => Except.ok HVACMode.cool
    | "AUTO" => Except.ok HVACMode.heat_cool
    | "OFF" => Except.ok HVACMode.off
    | _ =>
      Except.error { translation_key := "failed_to_parse_hvac_mode",
                     translation_placeholders := [("mode", mode)] }

/-- `BryantEvolutionClimate._read_hvac_action`: derive the current running
HVAC operation from the device's `(mode, active)` tuple and the entity's
`current_temperature` / `target_temperature_low` attributes. -/
def _read_hvac_action (client : BryantEvolutionClient) (s : ControllerState) :
    Except HomeAssistantError HVACAction :=
  match client.read_hvac_mode with
  | none =>
    Except.error { translation_key := "failed_to_read_hvac_action",
                   translation_placeholders := [] }
  | some mode_and_active =>
    let mode := mode_and_active.1
    let is_active := mode_and_active.2
    if !is_active then
      Except.ok HVACAction.off
    else
      -- The `case` arms; every fall-through reaches the final `raise`.
      let fallThrough : Except HomeAssistantError HVACAction :=
        Except.error
          { translation_key := "failed_to_parse_hvac_mode",
            translation_placeholders :=
              [("mode_and_active", modeAndActiveStr mode_and_active),
               ("current_temperature", optIntStr s.current_temperature),
               ("target_temperature_low", optIntStr s.target_temperature_low)] }
      match strUpper mode with
      | "HEAT" => Except.ok HVACAction.heating
      | "COOL" => Except.ok HVACAction.cooling
      | "OFF" => Except.ok HVACAction.off
      | "AUTO" =>
        match s.current_temperature, s.target_temperature_low with
        | some ct, some tl =>
          if ct > tl then Except.ok HVACAction.cooling
          else Except.ok HVACAction.heating
        | _, _ => fallThrough
      | _ => fallThrough

/-- `BryantEvolutionClimate.async_update`: refresh the entity state from the
device. Returns the state as mutated up to the point where an exception (if
any) propagates, together with the exception. -/
def async_update (client : BryantEvolutionClient) (s : ControllerState) :
    ControllerState × Option HomeAssistantError :=
  let s := { s with current_temperature := client.read_current_temperature }
  -- `_attr_fan_mode = read_fan_mode(); if not None: lower()`.
  let s := { s with fan_mode := client.read_fan_mode.map strLower }
  let s := { s with target_temperature := none,
                    target_temperature_high := none,
                    target_temperature_low := none }
  match _read_hvac_mode client with
  | Except.error e => (s, some e)
  | Except.ok mode =>
    let s := { s with hvac_mode := some mode }
    -- Set target_temperature or target_temperature_{high, low} based on mode.
    let s :=
      match mode with
      | HVACMode.heat =>
        { s with target_temperature := client.read_heating_setpoint }
      | HVACMode.cool =>
        { s with target_temperature := client.read_cooling_setpoint }
      | HVACMode.heat_cool =>
        { s with target_temperature_high := client.read_cooling_setpoint,
                 target_temperature_low := client.read_heating_setpoint }
      | HVACMode.off => s
      | _ => s  -- `case _`: logs an error and keeps going.
    match _read_hvac_action client s with
    | Except.error e => (s, some e)
    | Except.ok action => ({ s with hvac_action := some action }, none)

/-- `BryantEvolutionClimate.async_set_hvac_mode`: map `HEAT_COOL` to the
device's `AUTO`, write it, and on success store the (mapped) mode locally
and signal a UI refresh. -/
def async_set_hvac_mode (client : BryantEvolutionClient) (hvac_mode : HVACMode)
    (s : ControllerState) :
    List Event × ControllerState × Option HomeAssistantError :=
  let hvac_mode := if hvac_mode = HVACMode.heat_cool then HVACMode.auto
                   else hvac_mode
  if client.set_hvac_mode hvac_mode.value then
    ([Event.setHvacModeWrite hvac_mode.value, Event.writeHaState],
     { s with hvac_mode := some hvac_mode }, none)
  else
    ([Event.setHvacModeWrite hvac_mode.value], s,
     some { translation_key := "failed_to_set_hvac_mode",
            translation_placeholders := [] })

/-- Python `int()` applied to a numeric `kwargs` value: truncation toward
zero (`Int.tdiv` is T-division and the denominator is positive). -/
def pyInt (q : ℚ) : ℤ := Int.tdiv q.num q.den

/-- The rational 1/2 (a `temperature=0.5` service call), built as a literal
so that it reduces definitionally. -/
def half : ℚ := ⟨1, 2, by decide, Nat.coprime_one_left 2⟩

/-- The `kwargs` of `async_set_temperature`: the three optional numeric
fields the method reads with `kwargs.get(...)`. -/
structure SetTemperatureArgs where
  target_temp_high : Option ℚ
  target_temp_low : Option ℚ
  temperature : Option ℚ
deriving DecidableEq, Repr

/-- Python truthiness of an optional numeric `kwargs` entry:
`kwargs.get(k)` is truthy iff the key is present with a nonzero value (the
raw value, before any `int(...)` conversion). -/
def truthy : Option ℚ → Bool
  | none => false
  | some v => v != 0

/-- `BryantEvolutionClimate.async_set_temperature`: three sequential blocks,
one per `kwargs` field, in source order `target_temp_high`,
`target_temp_low`, `temperature`; each truthy field is written to the
device, and on success the local attribute is updated and a UI refresh is
signalled; on failure the exception propagates at once. -/
def async_set_temperature (client : BryantEvolutionClient)
    (kwargs : SetTemperatureArgs) (s : ControllerState) :
    List Event × ControllerState × Option HomeAssistantError :=
  -- `if kwargs.get("target_temp_high"):`
  let b1 : List Event × ControllerState × Option HomeAssistantError :=
    if truthy kwargs.target_temp_high then
      let temp := pyInt (kwargs.target_temp_high.getD 0)
      if client.set_cooling_setpoint temp then
        ([Event.setCoolingSetpointWrite temp, Event.writeHaState],
         { s with target_temperature_high := some temp }, none)
      else
        ([Event.setCoolingSetpointWrite temp], s,
         some { translation_key := "failed_to_set_clsp",
                translation_placeholders := [] })
    else ([], s, none)
  match b1 with
  | (tr1, s1, some e) => (tr1, s1, some e)
  | (tr1, s1, none) =>
    -- `if kwargs.get("target_temp_low"):`
    let b2 : List Event × ControllerState × Option HomeAssistantError :=
      if truthy kwargs.target_temp_low then
        let temp := pyInt (kwargs.target_temp_low.getD 0)
        if client.set_heating_setpoint temp then
          ([Event.setHeatingSetpointWrite temp, Event.writeHaState],
           { s1 with target_temperature_low := some temp }, none)
        else
          ([Event.setHeatingSetpointWrite temp], s1,
           some { translation_key := "failed_to_set_htsp",
                  translation_placeholders := [] })
      else ([], s1, none)
    match b2 with
    | (tr2, s2, some e) => (tr1 ++ tr2, s2, some e)
    | (tr2, s2, none) =>
      -- `if kwargs.get("temperature"):`
      let b3 : List Event × ControllerState × Option HomeAssistantError :=
        if truthy kwargs.temperature then
          let temp := pyInt (kwargs.temperature.getD 0)
          -- `fn = set_heating_setpoint if hvac_mode == HEAT else set_cooling_setpoint`
          let isHeat := s2.hvac_mode = some HVACMode.heat
          let writeOk := if isHeat then client.set_heating_setpoint temp
                         else client.set_cooling_setpoint temp
          let ev := if isHeat then Event.setHeatingSetpointWrite temp
                    else Event.setCoolingSetpointWrite temp
          if writeOk then
            ([ev, Event.writeHaState],
             { s2 with target_temperature := some temp }, none)
          else
            ([ev], s2,
             some { translation_key := "failed_to_set_temp",
                    translation_placeholders := [] })
        else ([], s2, none)
      (tr1 ++ tr2 ++ b3.1, b3.2.1, b3.2.2)

/-- `BryantEvolutionClimate.async_set_fan_mode`: write the fan mode; on
success store it lower-cased and signal a UI refresh. -/
def async_set_fan_mode (client : BryantEvolutionClient) (fan_mode : String)
    (s : ControllerState) :
    List Event × ControllerState × Option HomeAssistantError :=
  if client.set_fan_mode fan_mode then
    ([Event.setFanModeWrite fan_mode, Event.writeHaState],
     { s with fan_mode := some (strLower fan_mode) }, none)
  else
    ([Event.setFanModeWrite fan_mode], s,
     some { translation_key := "failed_to_set_fan_mode",
            translation_placeholders := [] })

/-- Sequencing of mutator blocks: if the accumulated run has already raised,
later blocks do not execute; otherwise the next block runs on the current
state and its trace is appended. -/
def runStep (r : List Event × ControllerState × Option HomeAssistantError)
    (f : ControllerState →
      List Event × ControllerState × Option HomeAssistantError) :
    List Event × ControllerState × Option HomeAssistantError :=
  match r with
  | (tr, s, some e) => (tr, s, some e)
  | (tr, s, none) =>
    let q := f s
    (tr ++ q.1, q.2.1, q.2.2)

/-- The `target_temp_high` block of `async_set_temperature`, in isolation:
if the field is truthy, write the cooling setpoint and on success update
`target_temperature_high` and signal a UI refresh. -/
def highStep (client : BryantEvolutionClient) (v : Option ℚ)
    (s : ControllerState) :
    List Event × ControllerState × Option HomeAssistantError :=
  if truthy v then
    let temp := pyInt (v.getD 0)
    if client.set_cooling_setpoint temp then
      ([Event.setCoolingSetpointWrite temp, Event.writeHaState],
       { s with target_temperature_high := some temp }, none)
    else
      ([Event.setCoolingSetpointWrite temp], s,
       some { translation_key := "failed_to_set_clsp",
              translation_placeholders := [] })
  else ([], s, none)

/-- The `target_temp_low` block of `async_set_temperature`, in isolation. -/
def lowStep (client : BryantEvolutionClient) (v : Option ℚ)
    (s : ControllerState) :
    List Event × ControllerState × Option HomeAssistantError :=
  if truthy v then
    let temp := pyInt (v.getD 0)
    if client.set_heating_setpoint temp then
      ([Event.setHeatingSetpointWrite temp, Event.writeHaState],
       { s with target_temperature_low := some temp }, none)
    else
      ([Event.setHeatingSetpointWrite temp], s,
       some { translation_key := "failed_to_set_htsp",
              translation_placeholders := [] })
  else ([], s, none)

/-- The `temperature` block of `async_set_temperature`, in isolation: routes
to the heating setpoint when the current local mode is `heat`, otherwise to
the cooling setpoint. -/
def targetStep (client : BryantEvolutionClient) (v : Option ℚ)
    (s : ControllerState) :
    List Event × ControllerState × Option HomeAssistantError :=
  if truthy v then
    let temp := pyInt (v.getD 0)
    let isHeat := s.hvac_mode = some HVACMode.heat
    let writeOk := if isHeat then client.set_heating_setpoint temp
                   else client.set_cooling_setpoint temp
    let ev := if isHeat then Event.setHeatingSetpointWrite temp
              else Event.setCoolingSetpointWrite temp
    if writeOk then
      ([ev, Event.writeHaState], { s with target_temperature := some temp },
       none)
    else
      ([ev], s,
       some { translation_key := "failed_to_set_temp",
              translation_placeholders := [] })
  else ([], s, none)

/-- Formalization of the spec's single-setpoint group being populated (and
the range group absent). -/
def singleSetpointPopulated (s : ControllerState) : Prop :=
  s.target_temperature ≠ none ∧ s.target_temperature_high = none ∧
  s.target_temperature_low = none

/-- Formalization of the spec's range-setpoint group being populated (and
the single group absent). -/
def rangeSetpointPopulated (s : ControllerState) : Prop :=
  s.target_temperature_high ≠ none ∧ s.target_temperature_low ≠ none ∧
  s.target_temperature = none

/-- Replace every non-truthy (absent or zero-valued) `kwargs` field of
`async_set_temperature` by an absent field. -/
def dropFalsyFields (kwargs : SetTemperatureArgs) : SetTemperatureArgs :=
  { target_temp_high :=
      if truthy kwargs.target_temp_high then kwargs.target_temp_high else none,
    target_temp_low :=
      if truthy kwargs.target_temp_low then kwargs.target_temp_low else none,
    temperature :=
      if truthy kwargs.temperature then kwargs.temperature else none }

/-- Entity state with no attribute populated (before the first refresh). -/
def initState : ControllerState := ⟨none, none, none, none, none, none, none⟩

/-- Fixture: `initState` with local mode `heat`. -/
def heatModeState : ControllerState :=
  { initState with hvac_mode := some HVACMode.heat }

/-- Fixture: current temperature 72 and low setpoint 70 cached locally. -/
def autoState : ControllerState :=
  { initState with current_temperature := some 72,
                   target_temperature_low := some 70 }

/-- Fixture device: active auto mode, temperature 72, setpoints 70/80, every
write accepted. -/
def okClient : BryantEvolutionClient :=
  { read_current_temperature := some 72,
    read_fan_mode := some "AUTO",
    read_hvac_mode := some ("Auto", true),
    read_heating_setpoint := some 70,
    read_cooling_setpoint := some 80,
    set_hvac_mode := fun _ => true,
    set_heating_setpoint := fun _ => true,
    set_cooling_setpoint := fun _ => true,
    set_fan_mode := fun _ => true }

/-- Fixture device: inactive `OFF` mode, every write accepted. -/
def offClient : BryantEvolutionClient :=
  { okClient with read_hvac_mode := some ("OFF", false),
                  read_fan_mode := some "LOW" }

/-- Fixture device: reports the unknown mode string `FROST`. -/
def frostClient : BryantEvolutionClient :=
  { okClient with read_hvac_mode := some ("FROST", true) }

/-- Fixture device: active auto mode but an unreadable current
temperature. -/
def autoUnknownClient : BryantEvolutionClient :=
  { okClient with read_current_temperature := none }

/-- Fixture device: every write rejected. -/
def failClient : BryantEvolutionClient :=
  { okClient with set_hvac_mode := fun _ => false,
                  set_heating_setpoint := fun _ => false,
                  set_cooling_setpoint := fun _ => false,
                  set_fan_mode := fun _ => false }

/-- Fixture device: cooling-setpoint writes accepted, heating-setpoint
writes rejected. -/
def mixClient : BryantEvolutionClient :=
  { okClient with set_heating_setpoint := fun _ => false }

/-- Helper: a missing mode/activity tuple makes `_read_hvac_mode` raise. -/
theorem read_hvac_mode_of_none (client : BryantEvolutionClient)
    (h : client.read_hvac_mode = none) :
    _read_hvac_mode client =
      Except.error { translation_key := "failed_to_read_hvac_mode",
                     translation_placeholders := [] } := by
  simp [_read_hvac_mode, h]

/-- Helper: an unrecognized mode string makes `_read_hvac_mode` raise with
the raw string in the placeholders. -/
theorem read_hvac_mode_of_unrecognized (client : BryantEvolutionClient)
    (mode : String) (active : Bool)
    (h : client.read_hvac_mode = some (mode, active))
    (h2 : strUpper mode ∉ (["HEAT", "COOL", "AUTO", "OFF"] : List String)) :
    _read_hvac_mode client =
      Except.error { translation_key := "failed_to_parse_hvac_mode",
                     translation_placeholders := [("mode", mode)] } := by
  simp only [_read_hvac_mode, h]
  split
  all_goals first
  | rfl
  | (rename_i heq; simp [heq] at h2)

/-- Helper: a recognized mode string (case-insensitively one of
heat/cool/auto/off) makes `_read_hvac_mode` succeed. -/
theorem read_hvac_mode_of_recognized (client : BryantEvolutionClient)
    (mode : String) (active : Bool)
    (h : client.read_hvac_mode = some (mode, active))
    (h2 : strUpper mode ∈ (["HEAT", "COOL", "AUTO", "OFF"] : List String)) :
    ∃ m, _read_hvac_mode client = Except.ok m := by
  simp only [_read_hvac_mode, h]
  split
  · exact ⟨HVACMode.heat, rfl⟩
  · exact ⟨HVACMode.cool, rfl⟩
  · exact ⟨HVACMode.heat_cool, rfl⟩
  · exact ⟨HVACMode.off, rfl⟩
  · rename_i n1 n2 n3 n4
    simp only [List.mem_cons, List.not_mem_nil, or_false] at h2
    rcases h2 with h2 | h2 | h2 | h2
    · exact absurd h2 n1
    · exact absurd h2 n2
    · exact absurd h2 n3
    · exact absurd h2 n4

/-- Claim C4 (amended): the mode-parsing step of `refresh` raises exactly
when the device returns no mode/activity tuple or an unrecognized
(case-insensitive) mode string, the unrecognized-mode error carries the raw
mode string, and any such error propagates out of `refresh`. (`refresh` as
a whole can additionally raise from run-action derivation.) -/
theorem read_hvac_mode_raises_iff_missing_or_unrecognized
    (client : BryantEvolutionClient) :
    ((∃ e, _read_hvac_mode client = Except.error e) ↔
      (client.read_hvac_mode = none ∨
       ∃ mode active, client.read_hvac_mode = some (mode, active) ∧
         strUpper mode ∉ (["HEAT", "COOL", "AUTO", "OFF"] : List String))) ∧
    (∀ mode active, client.read_hvac_mode = some (mode, active) →
      strUpper mode ∉ (["HEAT", "COOL", "AUTO", "OFF"] : List String) →
      _read_hvac_mode client =
        Except.error { translation_key := "failed_to_parse_hvac_mode",
                       translation_placeholders := [("mode", mode)] }) ∧
    (∀ e, _read_hvac_mode client = Except.error e →
      ∀ s, (async_update client s).2 = some e) := by
  refine ⟨?_, ?_, ?_⟩
  · constructor
    · rintro ⟨e, he⟩
      cases hr : client.read_hvac_mode with
      | none => exact Or.inl rfl
      | some p =>
        obtain ⟨mo, ac⟩ := p
        right
        refine ⟨mo, ac, rfl, ?_⟩
        intro hmem
        obtain ⟨m, hm⟩ := read_hvac_mode_of_recognized client mo ac hr hmem
        rw [hm] at he
        exact Except.noConfusion he
    · rintro (hr | ⟨mode, active, hr, hmem⟩)
      · exact ⟨_, read_hvac_mode_of_none client hr⟩
      · exact ⟨_, read_hvac_mode_of_unrecognized client mode active hr hmem⟩
  · intro mode active hr hmem
    exact read_hvac_mode_of_unrecognized client mode active hr hmem
  · intro e he s
    simp [async_update, he]

/-- Claim C4 counterexample: a device reporting the recognized tuple
`("Auto", true)` but no current temperature still makes `refresh` raise
(from run-action derivation), so "raises exactly when the tuple is missing
or the mode unrecognized" fails for `refresh` as a whole. -/
theorem refresh_raises_with_recognized_mode :
    autoUnknownClient.read_hvac_mode = some ("Auto", true) ∧
    strUpper "Auto" ∈ (["HEAT", "COOL", "AUTO", "OFF"] : List String) ∧
    (async_update autoUnknownClient initState).2.isSome = true := by
  refine ⟨rfl, by decide, by decide⟩

/-- Claim C4 witness: the device reporting mode string `FROST` makes
`_read_hvac_mode` raise with `FROST` in the placeholders. -/
theorem read_hvac_mode_raises_iff_missing_or_unrecognized_witness :
    _read_hvac_mode frostClient =
      Except.error { translation_key := "failed_to_parse_hvac_mode",
                     translation_placeholders := [("mode", "FROST")] } :=
  (read_hvac_mode_raises_iff_missing_or_unrecognized frostClient).2.1
    "FROST" true rfl (by decide)

/-- Claim C1 (code bug): `setMode(heat_cool)` writes the device string
`auto` and, on success, signals a UI refresh — but it stores the local
`hvac_mode` as `auto`, not `heat_cool`, although `auto` is not among the
entity's declared modes and the refresh path maps the device's `AUTO` back
to `heat_cool`. Evaluated at a device that accepts the write. -/
theorem set_hvac_mode_heat_cool_stores_auto :
    async_set_hvac_mode okClient HVACMode.heat_cool initState =
      ([Event.setHvacModeWrite "auto", Event.writeHaState],
       { initState with hvac_mode := some HVACMode.auto }, none) ∧
    (async_set_hvac_mode okClient HVACMode.heat_cool initState).2.1.hvac_mode ≠
      some HVACMode.heat_cool := by
  constructor
  · decide
  · decide

/-- Claim C3: the derived run action is `off` whenever the device reports
inactive; otherwise `heating`/`cooling`/`off` for modes heat/cool/off; in
active auto mode it compares the current temperature with the low setpoint
when both are known, and raises with both raw readings in the placeholders
when either is unknown. A missing tuple also raises. -/
theorem read_hvac_action_spec (client : BryantEvolutionClient)
    (s : ControllerState) :
    (client.read_hvac_mode = none →
      _read_hvac_action client s =
        Except.error { translation_key := "failed_to_read_hvac_action",
                       translation_placeholders := [] }) ∧
    (∀ mode active, client.read_hvac_mode = some (mode, active) →
      ((active = false →
         _read_hvac_action client s = Except.ok HVACAction.off) ∧
       (active = true →
         ((strUpper mode = "HEAT" →
            _read_hvac_action client s = Except.ok HVACAction.heating) ∧
          (strUpper mode = "COOL" →
            _read_hvac_action client s = Except.ok HVACAction.cooling) ∧
          (strUpper mode = "OFF" →
            _read_hvac_action client s = Except.ok HVACAction.off) ∧
          (strUpper mode = "AUTO" →
            ((∀ ct tl, s.current_temperature = some ct →
               s.target_temperature_low = some tl →
               _read_hvac_action client s =
                 (if ct > tl then Except.ok HVACAction.cooling
                  else Except.ok HVACAction.heating)) ∧
             ((s.current_temperature = none ∨
               s.target_temperature_low = none) →
              ∃ e, _read_hvac_action client s = Except.error e ∧
                ("current_temperature", optIntStr s.current_temperature) ∈
                  e.translation_placeholders ∧
                ("target_temperature_low",
                  optIntStr s.target_temperature_low) ∈
                  e.translation_placeholders))))))) := by
  constructor
  · intro h
    simp [_read_hvac_action, h]
  · intro mode active h
    constructor
    · intro ha
      subst ha
      simp [_read_hvac_action, h]
    · intro ha
      subst ha
      refine ⟨?_, ?_, ?_, ?_⟩
      · intro hm; simp [_read_hvac_action, h, hm]
      · intro hm; simp [_read_hvac_action, h, hm]
      · intro hm; simp [_read_hvac_action, h, hm]
      · intro hm
        constructor
        · intro ct tl hct htl
          simp [_read_hvac_action, h, hm, hct, htl]
        · intro hun
          refine ⟨{ translation_key := "failed_to_parse_hvac_mode",
                    translation_placeholders :=
                      [("mode_and_active", modeAndActiveStr (mode, true)),
                       ("current_temperature",
                         optIntStr s.current_temperature),
                       ("target_temperature_low",
                         optIntStr s.target_temperature_low)] },
                 ?_, ?_, ?_⟩
          · rcases hun with hct | htl
            · simp only [_read_hvac_action, h, hm, hct]
              cases s.target_temperature_low <;> rfl
            · simp only [_read_hvac_action, h, hm, htl]
              cases s.current_temperature <;> rfl
          · simp
          · simp

/-- Claim C3 witness: an active auto device with current temperature 72 and
low setpoint 70 cached locally derives the `cooling` action. -/
theorem read_hvac_action_spec_witness :
    _read_hvac_action okClient autoState = Except.ok HVACAction.cooling := by
  have h :=
    (((read_hvac_action_spec okClient autoState).2 "Auto" true rfl).2
      rfl).2.2.2 (by decide)
  have h2 := h.1 72 70 rfl rfl
  simpa using h2

/-- Helper: a successful refresh parsed some mode, stored it, and filled the
setpoint fields according to that mode. -/
theorem async_update_ok_fields (client : BryantEvolutionClient)
    (s s' : ControllerState) (h : async_update client s = (s', none)) :
    ∃ mode, _read_hvac_mode client = Except.ok mode ∧
      s'.hvac_mode = some mode ∧
      (mode = HVACMode.heat →
        s'.target_temperature = client.read_heating_setpoint ∧
        s'.target_temperature_high = none ∧
        s'.target_temperature_low = none) ∧
      (mode = HVACMode.cool →
        s'.target_temperature = client.read_cooling_setpoint ∧
        s'.target_temperature_high = none ∧
        s'.target_temperature_low = none) ∧
      (mode = HVACMode.heat_cool →
        s'.target_temperature_high = client.read_cooling_setpoint ∧
        s'.target_temperature_low = client.read_heating_setpoint ∧
        s'.target_temperature = none) ∧
      (mode = HVACMode.off →
        s'.target_temperature = none ∧
        s'.target_temperature_high = none ∧
        s'.target_temperature_low = none) := by
  cases hm : _read_hvac_mode client with
  | error e =>
    simp only [async_update, hm, Prod.mk.injEq] at h
    exact absurd h.2 (by simp)
  | ok mode =>
    cases mode <;>
    · simp only [async_update, hm] at h
      split at h
      · rename_i e heq
        simp only [Prod.mk.injEq] at h
        exact absurd h.2 (by simp)
      · rename_i a heq
        injection h with h1 h2
        subst h1
        exact ⟨_, rfl, by simp, by simp, by simp, by simp, by simp⟩

/-- Claim C5: during every successful refresh the setpoint fields are
populated from the device according to the parsed mode: heat reads the
heating setpoint into the target, cool the cooling setpoint, heat_cool the
cooling setpoint into high and the heating setpoint into low, and off reads
no setpoint (all three stay absent). -/
theorem async_update_mode_setpoint_mapping (client : BryantEvolutionClient)
    (s s' : ControllerState) (h : async_update client s = (s', none)) :
    (s'.hvac_mode = some HVACMode.heat →
      s'.target_temperature = client.read_heating_setpoint ∧
      s'.target_temperature_high = none ∧
      s'.target_temperature_low = none) ∧
    (s'.hvac_mode = some HVACMode.cool →
      s'.target_temperature = client.read_cooling_setpoint ∧
      s'.target_temperature_high = none ∧
      s'.target_temperature_low = none) ∧
    (s'.hvac_mode = some HVACMode.heat_cool →
      s'.target_temperature_high = client.read_cooling_setpoint ∧
      s'.target_temperature_low = client.read_heating_setpoint ∧
      s'.target_temperature = none) ∧
    (s'.hvac_mode = some HVACMode.off →
      s'.target_temperature = none ∧
      s'.target_temperature_high = none ∧
      s'.target_temperature_low = none) := by
  obtain ⟨mode, -, hmode, hheat, hcool, hhc, hoff⟩ :=
    async_update_ok_fields client s s' h
  refine ⟨?_, ?_, ?_, ?_⟩ <;> intro hsm <;> rw [hmode] at hsm <;>
    injection hsm with hsm
  · exact hheat hsm
  · exact hcool hsm
  · exact hhc hsm
  · exact hoff hsm

/-- Claim C5 witness: refreshing against the auto-mode fixture device fills
high from the cooling setpoint, low from the heating setpoint, and leaves
the single target absent. -/
theorem async_update_mode_setpoint_mapping_witness :
    (async_update okClient initState).1.target_temperature_high =
      okClient.read_cooling_setpoint ∧
    (async_update okClient initState).1.target_temperature_low =
      okClient.read_heating_setpoint ∧
    (async_update okClient initState).1.target_temperature = none := by
  have h := async_update_mode_setpoint_mapping okClient initState
      (async_update okClient initState).1 (by decide)
  exact h.2.2.1 (by decide)

/-- Claim C9 counterexample: refreshing against a device in (inactive) OFF
mode succeeds, yet neither the single-setpoint group nor the range group is
populated — so "exactly one of the setpoint groups is populated" fails. -/
theorem refresh_off_mode_populates_no_group :
    (async_update offClient initState).2 = none ∧
    ¬(singleSetpointPopulated (async_update offClient initState).1 ∨
      rangeSetpointPopulated (async_update offClient initState).1) := by
  unfold singleSetpointPopulated rangeSetpointPopulated
  decide

/-- Claim C9 (amended): after every successful refresh at most one setpoint
group is populated, and which group may be populated is determined by the
stored mode: heat/cool leave the range fields absent, heat_cool leaves the
single target absent, off leaves all three absent; the mode's own group is
fully populated whenever the device returned the corresponding
setpoint reads. -/
theorem async_update_setpoint_groups (client : BryantEvolutionClient)
    (s s' : ControllerState) (h : async_update client s = (s', none)) :
    ¬(singleSetpointPopulated s' ∧ rangeSetpointPopulated s') ∧
    (s'.hvac_mode = some HVACMode.heat ∨ s'.hvac_mode = some HVACMode.cool →
      s'.target_temperature_high = none ∧
      s'.target_temperature_low = none) ∧
    (s'.hvac_mode = some HVACMode.heat_cool →
      s'.target_temperature = none) ∧
    (s'.hvac_mode = some HVACMode.off →
      s'.target_temperature = none ∧
      s'.target_temperature_high = none ∧
      s'.target_temperature_low = none) ∧
    (s'.hvac_mode = some HVACMode.heat →
      client.read_heating_setpoint ≠ none → singleSetpointPopulated s') ∧
    (s'.hvac_mode = some HVACMode.cool →
      client.read_cooling_setpoint ≠ none → singleSetpointPopulated s') ∧
    (s'.hvac_mode = some HVACMode.heat_cool →
      client.read_cooling_setpoint ≠ none →
      client.read_heating_setpoint ≠ none →
      rangeSetpointPopulated s') := by
  obtain ⟨mode, -, hmode, hheat, hcool, hhc, hoff⟩ :=
    async_update_ok_fields client s s' h
  refine ⟨?_, ?_, ?_, ?_, ?_, ?_, ?_⟩
  · rintro ⟨⟨hs, -, -⟩, ⟨-, -, hr⟩⟩
    exact hs hr
  · rintro (hsm | hsm) <;> rw [hmode] at hsm <;> injection hsm with hsm
    · exact ⟨(hheat hsm).2.1, (hheat hsm).2.2⟩
    · exact ⟨(hcool hsm).2.1, (hcool hsm).2.2⟩
  · intro hsm; rw [hmode] at hsm; injection hsm with hsm
    exact (hhc hsm).2.2
  · intro hsm; rw [hmode] at hsm; injection hsm with hsm
    exact hoff hsm
  · intro hsm hread; rw [hmode] at hsm; injection hsm with hsm
    obtain ⟨h1, h2, h3⟩ := hheat hsm
    exact ⟨by rw [h1]; exact hread, h2, h3⟩
  · intro hsm hread; rw [hmode] at hsm; injection hsm with hsm
    obtain ⟨h1, h2, h3⟩ := hcool hsm
    exact ⟨by rw [h1]; exact hread, h2, h3⟩
  · intro hsm hrc hrh; rw [hmode] at hsm; injection hsm with hsm
    obtain ⟨h1, h2, h3⟩ := hhc hsm
    exact ⟨by rw [h1]; exact hrc, by rw [h2]; exact hrh, h3⟩

/-- Claim C9 witness: the auto-mode fixture refresh populates exactly the
range group. -/
theorem async_update_setpoint_groups_witness :
    rangeSetpointPopulated (async_update okClient initState).1 := by
  have h := async_update_setpoint_groups okClient initState
      (async_update okClient initState).1 (by decide)
  exact h.2.2.2.2.2.2 (by decide) (by decide) (by decide)

/-- Claim C2 counterexample: a call supplying both `temperature` (75) and
`target_temp_high` (80) in heat mode performs the high field's device write
first — the first event is the cooling-setpoint write for the high field,
not the target field's write — contradicting "target first". -/
theorem set_temperature_high_processed_before_target :
    (async_set_temperature okClient
        { target_temp_high := some 80, target_temp_low := none,
          temperature := some 75 } heatModeState).1 =
      [Event.setCoolingSetpointWrite 80, Event.writeHaState,
       Event.setHeatingSetpointWrite 75, Event.writeHaState] ∧
    (async_set_temperature okClient
        { target_temp_high := some 80, target_temp_low := none,
          temperature := some 75 } heatModeState).1.head? ≠
      some (Event.setHeatingSetpointWrite 75) := by
  unfold async_set_temperature
  decide

/-- Claim C2 (amended): the three optional fields are processed
independently in the source order `targetHigh` first, then `targetLow`,
then `target`: on an all-truthy, all-successful call the device writes and
local updates happen in exactly that order. -/
theorem set_temperature_order_high_low_target (client : BryantEvolutionClient)
    (s : ControllerState) (hv lv tv : ℚ)
    (hh : hv ≠ 0) (hl : lv ≠ 0) (ht : tv ≠ 0)
    (wc : client.set_cooling_setpoint (pyInt hv) = true)
    (wh : client.set_heating_setpoint (pyInt lv) = true)
    (wt : (if s.hvac_mode = some HVACMode.heat
           then client.set_heating_setpoint (pyInt tv)
           else client.set_cooling_setpoint (pyInt tv)) = true) :
    async_set_temperature client ⟨some hv, some lv, some tv⟩ s =
      ([Event.setCoolingSetpointWrite (pyInt hv), Event.writeHaState,
        Event.setHeatingSetpointWrite (pyInt lv), Event.writeHaState,
        (if s.hvac_mode = some HVACMode.heat
         then Event.setHeatingSetpointWrite (pyInt tv)
         else Event.setCoolingSetpointWrite (pyInt tv)), Event.writeHaState],
       { s with target_temperature_high := some (pyInt hv),
                target_temperature_low := some (pyInt lv),
                target_temperature := some (pyInt tv) }, none) := by
  by_cases hmode : s.hvac_mode = some HVACMode.heat
  · rw [if_pos hmode] at wt
    simp [async_set_temperature, truthy, hh, hl, ht, wc, wh, wt, hmode]
  · rw [if_neg hmode] at wt
    simp [async_set_temperature, truthy, hh, hl, ht, wc, wh, wt, hmode]

/-- Claim C2 witness: a heat-mode call with high 80, low 70, target 75 on
an all-accepting device produces the three writes in high, low, target
order. -/
theorem set_temperature_order_high_low_target_witness :
    async_set_temperature okClient ⟨some 80, some 70, some 75⟩ heatModeState =
      ([Event.setCoolingSetpointWrite 80, Event.writeHaState,
        Event.setHeatingSetpointWrite 70, Event.writeHaState,
        Event.setHeatingSetpointWrite 75, Event.writeHaState],
       { heatModeState with target_temperature_high := some 80,
                            target_temperature_low := some 70,
                            target_temperature := some 75 }, none) := by
  have h := set_temperature_order_high_low_target okClient heatModeState
      80 70 75 (by decide) (by decide) (by decide) rfl rfl (by decide)
  simpa [heatModeState, initState] using h

/-- Claim C6: the `target` field's write goes to the heating setpoint when
the current local mode is heat, and to the cooling setpoint for every other
current mode (the first trace event is the attempted device write). -/
theorem set_temperature_target_routes_by_mode (client : BryantEvolutionClient)
    (s : ControllerState) (tv : ℚ) (ht : tv ≠ 0) :
    (async_set_temperature client ⟨none, none, some tv⟩ s).1.head? =
      some (if s.hvac_mode = some HVACMode.heat
            then Event.setHeatingSetpointWrite (pyInt tv)
            else Event.setCoolingSetpointWrite (pyInt tv)) := by
  by_cases hmode : s.hvac_mode = some HVACMode.heat
  · cases hw : client.set_heating_setpoint (pyInt tv) <;>
      simp [async_set_temperature, truthy, ht, hmode, hw]
  · cases hw : client.set_cooling_setpoint (pyInt tv) <;>
      simp [async_set_temperature, truthy, ht, hmode, hw]

/-- Claim C6 witness: `setTemperature(target=75)` in heat mode attempts the
heating-setpoint write; the same call in cool mode attempts the
cooling-setpoint write. -/
theorem set_temperature_target_routes_by_mode_witness :
    (async_set_temperature okClient ⟨none, none, some 75⟩
        heatModeState).1.head? =
      some (Event.setHeatingSetpointWrite 75) ∧
    (async_set_temperature okClient ⟨none, none, some 75⟩
        { initState with hvac_mode := some HVACMode.cool }).1.head? =
      some (Event.setCoolingSetpointWrite 75) := by
  constructor
  · have h := set_temperature_target_routes_by_mode okClient heatModeState
        75 (by decide)
    simpa [heatModeState, initState] using h
  · have h := set_temperature_target_routes_by_mode okClient
        { initState with hvac_mode := some HVACMode.cool } 75 (by decide)
    simpa [initState] using h

/-- Claim C7: when the device rejects the write, every mutator — setMode,
setTemperature on any single field, setFanMode — raises the corresponding
write error and returns with the local state exactly as it was (its trace
holds only the attempted write: no UI refresh signal, no optimistic
update). -/
theorem mutator_write_failure_preserves_state (client : BryantEvolutionClient)
    (s : ControllerState) :
    (∀ m : HVACMode,
      client.set_hvac_mode
        (if m = HVACMode.heat_cool then HVACMode.auto else m).value = false →
      async_set_hvac_mode client m s =
        ([Event.setHvacModeWrite
            (if m = HVACMode.heat_cool then HVACMode.auto else m).value], s,
         some { translation_key := "failed_to_set_hvac_mode",
                translation_placeholders := [] })) ∧
    (∀ v : ℚ, v ≠ 0 → client.set_cooling_setpoint (pyInt v) = false →
      async_set_temperature client ⟨some v, none, none⟩ s =
        ([Event.setCoolingSetpointWrite (pyInt v)], s,
         some { translation_key := "failed_to_set_clsp",
                translation_placeholders := [] })) ∧
    (∀ v : ℚ, v ≠ 0 → client.set_heating_setpoint (pyInt v) = false →
      async_set_temperature client ⟨none, some v, none⟩ s =
        ([Event.setHeatingSetpointWrite (pyInt v)], s,
         some { translation_key := "failed_to_set_htsp",
                translation_placeholders := [] })) ∧
    (∀ v : ℚ, v ≠ 0 →
      (if s.hvac_mode = some HVACMode.heat
       then client.set_heating_setpoint (pyInt v)
       else client.set_cooling_setpoint (pyInt v)) = false →
      async_set_temperature client ⟨none, none, some v⟩ s =
        ([if s.hvac_mode = some HVACMode.heat
          then Event.setHeatingSetpointWrite (pyInt v)
          else Event.setCoolingSetpointWrite (pyInt v)], s,
         some { translation_key := "failed_to_set_temp",
                translation_placeholders := [] })) ∧
    (∀ f : String, client.set_fan_mode f = false →
      async_set_fan_mode client f s =
        ([Event.setFanModeWrite f], s,
         some { translation_key := "failed_to_set_fan_mode",
                translation_placeholders := [] })) := by
  refine ⟨?_, ?_, ?_, ?_, ?_⟩
  · intro m hw
    by_cases hm : m = HVACMode.heat_cool
    · rw [if_pos hm] at hw ⊢
      simp [async_set_hvac_mode, hm, hw]
    · rw [if_neg hm] at hw ⊢
      simp [async_set_hvac_mode, hm, hw]
  · intro v hv hw
    simp [async_set_temperature, truthy, hv, hw]
  · intro v hv hw
    simp [async_set_temperature, truthy, hv, hw]
  · intro v hv hw
    by_cases hmode : s.hvac_mode = some HVACMode.heat
    · rw [if_pos hmode] at hw ⊢
      simp [async_set_temperature, truthy, hv, hw, hmode]
    · rw [if_neg hmode] at hw ⊢
      simp [async_set_temperature, truthy, hv, hw, hmode]
  · intro f hw
    simp [async_set_fan_mode, hw]

/-- Claim C7 witness: a fan-mode write rejected by the device raises and
leaves the untouched initial state. -/
theorem mutator_write_failure_preserves_state_witness :
    async_set_fan_mode failClient "low" initState =
      ([Event.setFanModeWrite "low"], initState,
       some { translation_key := "failed_to_set_fan_mode",
              translation_placeholders := [] }) :=
  (mutator_write_failure_preserves_state failClient initState).2.2.2.2
    "low" rfl

/-- Claim C8: on a multi-field call where an earlier field's write succeeds
and a later field's write fails, every earlier field's local update is
retained in the returned state, the failing field's write error is raised,
and the remaining fields are abandoned (no trace events for them): shown
for the high-succeeds/low-fails case (target pending, whatever it was) and
for the high-and-low-succeed/target-fails case. -/
theorem set_temperature_mid_call_failure_keeps_earlier
    (client : BryantEvolutionClient) (s : ControllerState)
    (hv lv : ℚ) (hh : hv ≠ 0) (hl : lv ≠ 0)
    (wc : client.set_cooling_setpoint (pyInt hv) = true) :
    (∀ tvOpt : Option ℚ, client.set_heating_setpoint (pyInt lv) = false →
      async_set_temperature client ⟨some hv, some lv, tvOpt⟩ s =
        ([Event.setCoolingSetpointWrite (pyInt hv), Event.writeHaState,
          Event.setHeatingSetpointWrite (pyInt lv)],
         { s with target_temperature_high := some (pyInt hv) },
         some { translation_key := "failed_to_set_htsp",
                translation_placeholders := [] })) ∧
    (∀ tv : ℚ, tv ≠ 0 → client.set_heating_setpoint (pyInt lv) = true →
      (if s.hvac_mode = some HVACMode.heat
       then client.set_heating_setpoint (pyInt tv)
       else client.set_cooling_setpoint (pyInt tv)) = false →
      async_set_temperature client ⟨some hv, some lv, some tv⟩ s =
        ([Event.setCoolingSetpointWrite (pyInt hv), Event.writeHaState,
          Event.setHeatingSetpointWrite (pyInt lv), Event.writeHaState,
          (if s.hvac_mode = some HVACMode.heat
           then Event.setHeatingSetpointWrite (pyInt tv)
           else Event.setCoolingSetpointWrite (pyInt tv))],
         { s with target_temperature_high := some (pyInt hv),
                  target_temperature_low := some (pyInt lv) },
         some { translation_key := "failed_to_set_temp",
                translation_placeholders := [] })) := by
  constructor
  · intro tvOpt wh
    simp [async_set_temperature, truthy, hh, hl, wc, wh]
  · intro tv ht wh wt
    by_cases hmode : s.hvac_mode = some HVACMode.heat
    · rw [if_pos hmode] at wt
      simp [async_set_temperature, truthy, hh, hl, ht, wc, wh, wt, hmode]
    · rw [if_neg hmode] at wt
      simp [async_set_temperature, truthy, hh, hl, ht, wc, wh, wt, hmode]

/-- Claim C8 witness: high 80 accepted, low 70 rejected, target 75 pending —
the returned state keeps high=80 and the call raises the heating-setpoint
error without touching the target field. -/
theorem set_temperature_mid_call_failure_keeps_earlier_witness :
    async_set_temperature mixClient ⟨some 80, some 70, some 75⟩ initState =
      ([Event.setCoolingSetpointWrite 80, Event.writeHaState,
        Event.setHeatingSetpointWrite 70],
       { initState with target_temperature_high := some 80 },
       some { translation_key := "failed_to_set_htsp",
              translation_placeholders := [] }) :=
  (set_temperature_mid_call_failure_keeps_earlier mixClient initState
    80 70 (by decide) (by decide) rfl).1 (some 75) rfl

/-- Helper: an absent field is not truthy. -/
theorem truthy_none : truthy none = false := rfl

/-- Helper: replacing the falsy fields of a `setTemperature` call by absent
fields does not change its behaviour. -/
theorem set_temperature_drop_falsy (client : BryantEvolutionClient)
    (kwargs : SetTemperatureArgs) (s : ControllerState) :
    async_set_temperature client (dropFalsyFields kwargs) s =
      async_set_temperature client kwargs s := by
  obtain ⟨h, l, t⟩ := kwargs
  by_cases th : truthy h = true <;> by_cases tl : truthy l = true <;>
    by_cases tt : truthy t = true <;>
      simp [async_set_temperature, dropFalsyFields, th, tl, tt, truthy_none]

/-- Helper: `async_set_temperature` is the sequential composition of its
three per-field blocks, in the order high, low, target. -/
theorem set_temperature_eq_steps (client : BryantEvolutionClient)
    (kwargs : SetTemperatureArgs) (s : ControllerState) :
    async_set_temperature client kwargs s =
      runStep (runStep (highStep client kwargs.target_temp_high s)
          (lowStep client kwargs.target_temp_low))
        (targetStep client kwargs.temperature) := by
  obtain ⟨h, l, t⟩ := kwargs
  unfold async_set_temperature runStep highStep lowStep targetStep
  by_cases th : truthy h = true <;> by_cases tl : truthy l = true <;>
    by_cases tt : truthy t = true <;>
      by_cases hm : s.hvac_mode = some HVACMode.heat <;>
        cases hw1 : client.set_cooling_setpoint (pyInt (h.getD 0)) <;>
          cases hw2 : client.set_heating_setpoint (pyInt (l.getD 0)) <;>
            cases hw3 : client.set_heating_setpoint (pyInt (t.getD 0)) <;>
              cases hw4 : client.set_cooling_setpoint (pyInt (t.getD 0)) <;>
                simp [th, tl, tt, hm, hw1, hw2, hw3, hw4]

/-- Claim C10 counterexample: the source checks truthiness of the raw
value and truncates with `int()` afterwards, so `temperature=0.5` is truthy
(not treated as absent) and `int(0.5) = 0` is written to the cooling
setpoint and stored locally — a setpoint write of 0 through this
interface. -/
theorem set_temperature_half_writes_zero :
    truthy (some half) = true ∧
    (async_set_temperature okClient
        { target_temp_high := none, target_temp_low := none,
          temperature := some half } initState).1 =
      [Event.setCoolingSetpointWrite 0, Event.writeHaState] ∧
    (async_set_temperature okClient
        { target_temp_high := none, target_temp_low := none,
          temperature := some half }
        initState).2.1.target_temperature = some 0 := by
  refine ⟨by decide, by decide, by decide⟩

/-- Claim C10 (amended): a field supplied as exactly zero (or absent) is
falsy and is treated as an absent field: the call behaves identically with
that field removed, so no device write is attempted for it, its local
attribute is unchanged, and no error arises on its account. (A truthy
fractional value is however truncated by `int()` after the truthiness
check, so a setpoint write of 0 is still possible.) -/
theorem set_temperature_falsy_fields_treated_as_absent
    (client : BryantEvolutionClient) (kwargs : SetTemperatureArgs)
    (s : ControllerState) :
    async_set_temperature client kwargs s =
      async_set_temperature client (dropFalsyFields kwargs) s :=
  (set_temperature_drop_falsy client kwargs s).symm
